import Mathlib

/-!
Shallow embedding of the solar-plant exercise program
(src/objects_relations_SolarPanel.cpp) and verification of its
specification claims.

Modelling conventions: C++ `double` and `float` values are modelled as
real numbers, C++ `int` as integers.  Member functions become Lean
functions taking the object as first argument; mutating members return
the updated object.  The program constant `pi` is the literal 3.1415
from the source, deliberately distinct from the mathematical constant
`Real.pi`.
-/

/-- The source constant `pi`, defined in the program as the literal 3.1415.
It is not the mathematical constant `Real.pi`. -/
def pi : ℝ := 3.1415

/-- The `SolarPanel` class: a rectangular panel described by element counts
`m_dimx` and `m_dimy` (C++ `int`). -/
structure SolarPanel where
  m_dimx : ℤ
  m_dimy : ℤ

namespace SolarPanel

/-- Per-element width in cm (source: `oneElementX = 6`). -/
def oneElementX : ℝ := 6

/-- Per-element height in cm (source: `oneElementY = 10`). -/
def oneElementY : ℝ := 10

/-- Per-element peak power in W (source: `oneElementPowerinW = 15`). -/
def oneElementPowerinW : ℝ := 15

/-- `dimXinCM`: returns `m_dimx * oneElementX`. -/
def dimXinCM (p : SolarPanel) : ℝ := p.m_dimx * oneElementX

/-- `dimYinCM`: returns `m_dimy * oneElementY`. -/
def dimYinCM (p : SolarPanel) : ℝ := p.m_dimy * oneElementY

/-- `areainCM2`: returns `dimXinCM() * dimYinCM()`. -/
def areainCM2 (p : SolarPanel) : ℝ := p.dimXinCM * p.dimYinCM

/-- `maxPowerinW`: returns `m_dimx * m_dimy * oneElementPowerinW`. -/
def maxPowerinW (p : SolarPanel) : ℝ := p.m_dimx * p.m_dimy * oneElementPowerinW

/-- `shrinkXto(nelements)`: overwrites `m_dimx` with `nelements`. -/
def shrinkXto (p : SolarPanel) (nelements : ℤ) : SolarPanel :=
  { p with m_dimx := nelements }

/-- `shrinkYto(nelements)`: overwrites `m_dimy` with `nelements`. -/
def shrinkYto (p : SolarPanel) (nelements : ℤ) : SolarPanel :=
  { p with m_dimy := nelements }

end SolarPanel

/-- The `PanelSetup` class: an orientation angle together with an owned
`SolarPanel`. -/
structure PanelSetup where
  m_orientationAngle : ℝ
  m_panel : SolarPanel

namespace PanelSetup

/-- The default-constructed `PanelSetup`, via the default arguments of the
constructor: angle 0 and `SolarPanel(20, 30)`. -/
def defaultSetup : PanelSetup := ⟨0, ⟨20, 30⟩⟩

/-- `currentPower(angleInRadians)`: returns
`maxPowerinW() * cos(angle)` if `cos(angle) > 0`, else 0. -/
noncomputable def currentPower (s : PanelSetup) (angleInRadians : ℝ) : ℝ :=
  if Real.cos angleInRadians > 0 then s.m_panel.maxPowerinW * Real.cos angleInRadians else 0

/-- `efficiency(angleInRadians)`: returns
`100 * currentPower(angle) / maxPowerinW()` if `cos(angle) > 0`, else 0. -/
noncomputable def efficiency (s : PanelSetup) (angleInRadians : ℝ) : ℝ :=
  if Real.cos angleInRadians > 0 then
    100 * s.currentPower angleInRadians / s.m_panel.maxPowerinW
  else 0

/-- `getAngle()`: returns `m_orientationAngle`. -/
def getAngle (s : PanelSetup) : ℝ := s.m_orientationAngle

/-- `setAngle(newangleInRadians)`: overwrites the orientation angle. -/
def setAngle (s : PanelSetup) (newangleInRadians : ℝ) : PanelSetup :=
  { s with m_orientationAngle := newangleInRadians }

/-- In the body of `efficiency`, the division by `m_panel.maxPowerinW()` is
executed exactly when `cos(angle) > 0`; that executed division has a zero
denominator exactly when additionally `maxPowerinW() = 0`.  This predicate
captures the reachability of a division by zero in `efficiency`. -/
def efficiencyDividesByZero (s : PanelSetup) (angleInRadians : ℝ) : Prop :=
  0 < Real.cos angleInRadians ∧ s.m_panel.maxPowerinW = 0

end PanelSetup

/-- The `LightSource` struct: the current source angle, default-initialized
to 0 by `m_SourceAngle()`. -/
structure LightSource where
  m_SourceAngle : ℝ

namespace LightSource

/-- The default-constructed `LightSource`: source angle 0. -/
def defaultSource : LightSource := ⟨0⟩

/-- `setSourceAngle(a)`: overwrites the source angle. -/
def setSourceAngle (_l : LightSource) (a : ℝ) : LightSource := ⟨a⟩

/-- `moveSourceAngleBy(d)`: increments the source angle by `d`. -/
def moveSourceAngleBy (l : LightSource) (d : ℝ) : LightSource :=
  ⟨l.m_SourceAngle + d⟩

/-- `getSourceAngle()`: returns the source angle. -/
def getSourceAngle (l : LightSource) : ℝ := l.m_SourceAngle

end LightSource

/-- The free function `LuminationAngle(somesetup, somelightsource)`:
if the setup orientation is negative it returns
`pi / 2 - sourceAngle + orientation`, otherwise
`pi / 2 + sourceAngle - orientation`, with `pi` the program constant. -/
noncomputable def LuminationAngle (somesetup : PanelSetup) (somelightsource : LightSource) : ℝ :=
  if somesetup.getAngle < 0 then
    pi / 2 - somelightsource.getSourceAngle + somesetup.getAngle
  else
    pi / 2 + somelightsource.getSourceAngle - somesetup.getAngle

/-- The `SolarPlant` class: it derives from `PanelSetup` (the inherited
subobject plays no role in any member) and owns an array of ten
`PanelSetup` slots. -/
structure SolarPlant extends PanelSetup where
  m_setups : Fin 10 → PanelSetup

namespace SolarPlant

/-- The default-constructed `SolarPlant` (`SolarPlant() = default`):
the base subobject and all ten slots are default-constructed. -/
def defaultPlant : SolarPlant :=
  ⟨PanelSetup.defaultSetup, fun _ => PanelSetup.defaultSetup⟩

/-- The array-taking constructor `SolarPlant(const PanelSetup setups[10])`.
Its body in the source is empty (only the comment "loop over the arrays"),
so the argument is ignored and every member is default-initialized, exactly
as in the default constructor. -/
def fromArray (_setups : Fin 10 → PanelSetup) : SolarPlant := defaultPlant

/-- `setPanelSetup(setup, index)`: overwrites slot `index` with `setup`. -/
def setPanelSetup (p : SolarPlant) (setup : PanelSetup) (index : Fin 10) : SolarPlant :=
  { p with m_setups := Function.update p.m_setups index setup }

/-- `currentOutput(source)`: starting from 0, loops over the ten slots and
adds each slot's `currentPower` at the incidence angle that
`LuminationAngle` computes for that slot and the source. -/
noncomputable def currentOutput (p : SolarPlant) (source : LightSource) : ℝ :=
  (List.finRange 10).foldl
    (fun output i =>
      output + (p.m_setups i).currentPower (LuminationAngle (p.m_setups i) source))
    0

end SolarPlant

section Helpers

/-- Folding addition of `f` over a list starting from `r` yields `r` plus the
sum of the mapped list. -/
lemma foldl_add_eq_add_sum {α : Type} (f : α → ℝ) :
    ∀ (l : List α) (r : ℝ), l.foldl (fun acc i => acc + f i) r = r + (l.map f).sum := by
  intro l
  induction l with
  | nil => intro r; simp
  | cons x xs ih => intro r; simp [ih, add_assoc]

/-- The loop in `currentOutput` computes the sum over the ten slots of each
slot's power at its resolved incidence angle. -/
lemma SolarPlant.currentOutput_eq_sum (p : SolarPlant) (source : LightSource) :
    p.currentOutput source =
      ∑ i : Fin 10,
        (p.m_setups i).currentPower (LuminationAngle (p.m_setups i) source) := by
  rw [SolarPlant.currentOutput, foldl_add_eq_add_sum, zero_add, Fin.sum_univ_def]

/-- `currentPower` is nonnegative whenever the panel's peak power is. -/
lemma PanelSetup.currentPower_nonneg (s : PanelSetup) (a : ℝ)
    (h : 0 ≤ s.m_panel.maxPowerinW) : 0 ≤ s.currentPower a := by
  rw [PanelSetup.currentPower]
  split
  · exact mul_nonneg h (le_of_lt (by assumption))
  · exact le_refl 0

end Helpers

/-- C3: for every plant configuration and every light source, `currentOutput`
equals the sum, over all ten slots, of that slot's `currentPower` applied to
the incidence angle `LuminationAngle` resolves from the slot's orientation
and the source angle. -/
theorem C3_currentOutput_is_sum_over_slots (p : SolarPlant) (source : LightSource) :
    p.currentOutput source =
      ∑ i : Fin 10,
        (p.m_setups i).currentPower (LuminationAngle (p.m_setups i) source) :=
  SolarPlant.currentOutput_eq_sum p source

/-- C4: for every mount and incidence angle, if the cosine of the angle is
positive then `currentPower` is the module's peak power times that cosine,
and if the cosine is nonpositive then `currentPower` is zero.  The function
is a pure function of its arguments, so it is deterministic and effect-free. -/
theorem C4_currentPower_cases (s : PanelSetup) (a : ℝ) :
    (0 < Real.cos a → s.currentPower a = s.m_panel.maxPowerinW * Real.cos a) ∧
    (Real.cos a ≤ 0 → s.currentPower a = 0) := by
  constructor
  · intro h
    rw [PanelSetup.currentPower, if_pos h]
  · intro h
    rw [PanelSetup.currentPower, if_neg (not_lt.mpr h)]

/-- C4 witness: at incidence 0 the cosine is 1, so the default mount's
`currentPower` is its peak power times `cos 0`. -/
theorem C4_witness :
    PanelSetup.defaultSetup.currentPower 0 =
      PanelSetup.defaultSetup.m_panel.maxPowerinW * Real.cos 0 :=
  (C4_currentPower_cases PanelSetup.defaultSetup 0).1
    (by rw [Real.cos_zero]; norm_num)

/-- C5: for positive element counts X and Y, the area is X·Y·unitWidth·unitHeight
and the peak power is X·Y·unitPower; concretely a 10×10 module has area 6000
and peak power 1500. -/
theorem C5_area_power_linearity (X Y : ℤ) (hX : 0 < X) (hY : 0 < Y) :
    (SolarPanel.mk X Y).areainCM2 =
        X * Y * SolarPanel.oneElementX * SolarPanel.oneElementY ∧
    (SolarPanel.mk X Y).maxPowerinW = X * Y * SolarPanel.oneElementPowerinW ∧
    (SolarPanel.mk 10 10).areainCM2 = 6000 ∧
    (SolarPanel.mk 10 10).maxPowerinW = 1500 := by
  refine ⟨?_, ?_, ?_, ?_⟩ <;>
    simp [SolarPanel.areainCM2, SolarPanel.dimXinCM, SolarPanel.dimYinCM,
      SolarPanel.maxPowerinW, SolarPanel.oneElementX, SolarPanel.oneElementY,
      SolarPanel.oneElementPowerinW] <;>
    ring

/-- C5 witness: the general statement instantiated at the concrete 10×10
module, with both positivity hypotheses discharged. -/
theorem C5_witness :
    (SolarPanel.mk 10 10).areainCM2 = 6000 ∧
    (SolarPanel.mk 10 10).maxPowerinW = 1500 :=
  ⟨(C5_area_power_linearity 10 10 (by norm_num) (by norm_num)).2.2.1,
   (C5_area_power_linearity 10 10 (by norm_num) (by norm_num)).2.2.2⟩

/-- C6: `efficiency` returns `100 * currentPower / peakPower` when the cosine
of the incidence is positive and 0 otherwise; the executed division has a
zero denominator only in the positive-cosine branch, it is unreachable for a
mount whose peak power is nonzero, and it is reached for any zero-size module
(either element count zero) whenever the cosine is positive. -/
theorem C6_efficiency_division_guard (s : PanelSetup) (a : ℝ) :
    (0 < Real.cos a →
        s.efficiency a = 100 * s.currentPower a / s.m_panel.maxPowerinW) ∧
    (Real.cos a ≤ 0 → s.efficiency a = 0) ∧
    (s.m_panel.maxPowerinW ≠ 0 → ¬ s.efficiencyDividesByZero a) ∧
    ((s.m_panel.m_dimx = 0 ∨ s.m_panel.m_dimy = 0) → 0 < Real.cos a →
        s.efficiencyDividesByZero a) := by
  refine ⟨?_, ?_, ?_, ?_⟩
  · intro h
    rw [PanelSetup.efficiency, if_pos h]
  · intro h
    rw [PanelSetup.efficiency, if_neg (not_lt.mpr h)]
  · intro h hz
    exact h hz.2
  · intro h hc
    refine ⟨hc, ?_⟩
    rw [SolarPanel.maxPowerinW]
    rcases h with h | h <;> rw [h] <;> simp

/-- C6 witness: a mount with a zero-width module reaches the zero-denominator
division at incidence 0, while the default mount (peak power 9000) never
does. -/
theorem C6_witness :
    (PanelSetup.mk 0 (SolarPanel.mk 0 30)).efficiencyDividesByZero 0 ∧
    ¬ PanelSetup.defaultSetup.efficiencyDividesByZero 0 :=
  ⟨(C6_efficiency_division_guard (PanelSetup.mk 0 (SolarPanel.mk 0 30)) 0).2.2.2
      (Or.inl rfl) (by rw [Real.cos_zero]; norm_num),
   (C6_efficiency_division_guard PanelSetup.defaultSetup 0).2.2.1
      (by norm_num [PanelSetup.defaultSetup, SolarPanel.maxPowerinW,
        SolarPanel.oneElementPowerinW])⟩

/-- C8: installing a mount at a slot overwrites exactly that slot with the
supplied mount and leaves every other slot unchanged. -/
theorem C8_setPanelSetup_frame (p : SolarPlant) (setup : PanelSetup) (i : Fin 10) :
    (p.setPanelSetup setup i).m_setups i = setup ∧
    ∀ j : Fin 10, j ≠ i → (p.setPanelSetup setup i).m_setups j = p.m_setups j := by
  constructor
  · simp [SolarPlant.setPanelSetup]
  · intro j hj
    simp [SolarPlant.setPanelSetup, Function.update_noteq hj]

/-- C8 witness: installing a mount at slot 3 of the default plant stores that
mount at slot 3 and leaves slot 5 as it was. -/
theorem C8_witness :
    ((SolarPlant.defaultPlant.setPanelSetup (PanelSetup.mk 1 (SolarPanel.mk 2 3)) 3).m_setups 3 =
        PanelSetup.mk 1 (SolarPanel.mk 2 3)) ∧
    (SolarPlant.defaultPlant.setPanelSetup (PanelSetup.mk 1 (SolarPanel.mk 2 3)) 3).m_setups 5 =
      SolarPlant.defaultPlant.m_setups 5 :=
  ⟨(C8_setPanelSetup_frame SolarPlant.defaultPlant (PanelSetup.mk 1 (SolarPanel.mk 2 3)) 3).1,
   (C8_setPanelSetup_frame SolarPlant.defaultPlant (PanelSetup.mk 1 (SolarPanel.mk 2 3)) 3).2
      5 (by decide)⟩

/-- C9: if every slot's module has nonnegative peak power, then every slot's
`currentPower` at its resolved incidence angle is nonnegative, and therefore
`currentOutput` is nonnegative. -/
theorem C9_output_nonneg (p : SolarPlant) (source : LightSource)
    (h : ∀ i : Fin 10, 0 ≤ (p.m_setups i).m_panel.maxPowerinW) :
    (∀ i : Fin 10,
        0 ≤ (p.m_setups i).currentPower (LuminationAngle (p.m_setups i) source)) ∧
    0 ≤ p.currentOutput source := by
  have hp : ∀ i : Fin 10,
      0 ≤ (p.m_setups i).currentPower (LuminationAngle (p.m_setups i) source) :=
    fun i => PanelSetup.currentPower_nonneg _ _ (h i)
  refine ⟨hp, ?_⟩
  rw [SolarPlant.currentOutput_eq_sum]
  exact Finset.sum_nonneg fun i _ => hp i

/-- C9 witness: the default plant, whose ten modules all have peak power
9000, has nonnegative output for the default light source. -/
theorem C9_witness :
    0 ≤ SolarPlant.defaultPlant.currentOutput LightSource.defaultSource :=
  (C9_output_nonneg SolarPlant.defaultPlant LightSource.defaultSource
      (fun _ => by
        norm_num [SolarPlant.defaultPlant, PanelSetup.defaultSetup,
          SolarPanel.maxPowerinW, SolarPanel.oneElementPowerinW])).2

/-- C10: for a mount whose module has nonzero peak power and an incidence
angle with positive cosine, `efficiency` is exactly 100 times that cosine,
independent of the module's size. -/
theorem C10_efficiency_independent_of_size (s : PanelSetup) (a : ℝ)
    (hpow : s.m_panel.maxPowerinW ≠ 0) (hcos : 0 < Real.cos a) :
    s.efficiency a = 100 * Real.cos a := by
  rw [PanelSetup.efficiency, if_pos hcos, PanelSetup.currentPower, if_pos hcos]
  field_simp
  ring

/-- C10 witness: the default mount at incidence 0 has efficiency
`100 * cos 0`. -/
theorem C10_witness :
    PanelSetup.defaultSetup.efficiency 0 = 100 * Real.cos 0 :=
  C10_efficiency_independent_of_size PanelSetup.defaultSetup 0
    (by norm_num [PanelSetup.defaultSetup, SolarPanel.maxPowerinW,
      SolarPanel.oneElementPowerinW])
    (by rw [Real.cos_zero]; norm_num)

/-- The concrete 10-entry array used to exhibit the behavior of the
array-taking constructor: every entry is a mount with orientation 1. -/
def C1array : Fin 10 → PanelSetup := fun _ => PanelSetup.mk 1 (SolarPanel.mk 20 30)

/-- C1: the array-taking constructor does not copy the supplied mounts.
Constructed from an array whose slot-0 mount has orientation 1, the plant's
slot 0 is the default-constructed mount with orientation 0, not the supplied
mount. -/
theorem C1_fromArray_ignores_argument :
    (SolarPlant.fromArray C1array).m_setups 0 = PanelSetup.defaultSetup ∧
    (SolarPlant.fromArray C1array).m_setups 0 ≠ C1array 0 := by
  constructor
  · rfl
  · intro hEq
    have h1 := congrArg PanelSetup.m_orientationAngle hEq
    simp [SolarPlant.fromArray, SolarPlant.defaultPlant, PanelSetup.defaultSetup,
      C1array] at h1

/-- C2 counterexample: at orientation 0 and source angle 0 the resolver
returns the program constant 3.1415 divided by 2, which is not the
mathematical pi over 2; the cosine of that angle is strictly positive, so
the default mount yields a nonzero (strictly positive) current power there,
contradicting the claim that it yields 0. -/
theorem C2_counterexample :
    LuminationAngle PanelSetup.defaultSetup LightSource.defaultSource ≠ Real.pi / 2 ∧
    PanelSetup.defaultSetup.currentPower
        (LuminationAngle PanelSetup.defaultSetup LightSource.defaultSource) ≠ 0 := by
  have hpi : pi < Real.pi := by
    simp only [pi]
    exact Real.pi_gt_d4
  have hL : LuminationAngle PanelSetup.defaultSetup LightSource.defaultSource = pi / 2 := by
    rw [LuminationAngle]
    rw [if_neg (by simp [PanelSetup.defaultSetup, PanelSetup.getAngle])]
    simp [PanelSetup.defaultSetup, PanelSetup.getAngle,
      LightSource.defaultSource, LightSource.getSourceAngle]
  have hcos : 0 < Real.cos (pi / 2) := by
    apply Real.cos_pos_of_mem_Ioo
    apply Set.mem_Ioo.mpr
    constructor
    · simp only [pi]
      linarith [Real.pi_pos]
    · linarith [hpi]
  constructor
  · rw [hL]
    intro h
    have : pi = Real.pi := by linarith
    exact absurd this (ne_of_lt hpi)
  · rw [hL, PanelSetup.currentPower, if_pos hcos]
    have hpow : 0 < PanelSetup.defaultSetup.m_panel.maxPowerinW := by
      norm_num [PanelSetup.defaultSetup, SolarPanel.maxPowerinW,
        SolarPanel.oneElementPowerinW]
    exact ne_of_gt (mul_pos hpow hcos)

/-- C2 (amended): for every orientation o and source angle s the resolver
returns pi/2 - s + o when o < 0 and pi/2 + s - o otherwise, where pi is the
program constant 3.1415 rather than the mathematical constant; at
orientation 0 and source angle 0 the resolved incidence is 3.1415/2, which
is strictly below the mathematical pi/2, so its cosine is positive and a
mount there with positive peak power produces strictly positive current
power, not zero. -/
theorem C2_lumination_formula (setup : PanelSetup) (src : LightSource) :
    (setup.getAngle < 0 →
        LuminationAngle setup src = pi / 2 - src.getSourceAngle + setup.getAngle) ∧
    (0 ≤ setup.getAngle →
        LuminationAngle setup src = pi / 2 + src.getSourceAngle - setup.getAngle) ∧
    (setup.getAngle = 0 → src.getSourceAngle = 0 → 0 < setup.m_panel.maxPowerinW →
        0 < setup.currentPower (LuminationAngle setup src)) := by
  have hpi : pi < Real.pi := by
    simp only [pi]
    exact Real.pi_gt_d4
  refine ⟨?_, ?_, ?_⟩
  · intro h
    rw [LuminationAngle, if_pos h]
  · intro h
    rw [LuminationAngle, if_neg (not_lt.mpr h)]
  · intro h0 hs hpow
    have hL : LuminationAngle setup src = pi / 2 := by
      rw [LuminationAngle, if_neg (by rw [h0]; norm_num), h0, hs]
      ring
    have hcos : 0 < Real.cos (pi / 2) := by
      apply Real.cos_pos_of_mem_Ioo
      apply Set.mem_Ioo.mpr
      constructor
      · simp only [pi]
        linarith [Real.pi_pos]
      · linarith [hpi]
    rw [hL, PanelSetup.currentPower, if_pos hcos]
    exact mul_pos hpow hcos

/-- C2 witness: the amended theorem applied to the default mount and the
default light source, with all three hypotheses discharged concretely. -/
theorem C2_witness :
    0 < PanelSetup.defaultSetup.currentPower
        (LuminationAngle PanelSetup.defaultSetup LightSource.defaultSource) :=
  (C2_lumination_formula PanelSetup.defaultSetup LightSource.defaultSource).2.2
    rfl rfl
    (by norm_num [PanelSetup.defaultSetup, SolarPanel.maxPowerinW,
      SolarPanel.oneElementPowerinW])

/-- C7 counterexample: take a mount whose module has a zero element count
(peak power 0) — a valid degenerate state.  The incidence angles 0 and 1
both lie in the open interval around 0, and cos 1 < cos 0, yet both current
powers are 0, so strict monotonicity fails for this mount. -/
theorem C7_counterexample :
    (0 : ℝ) ∈ Set.Ioo (-(Real.pi / 2)) (Real.pi / 2) ∧
    (1 : ℝ) ∈ Set.Ioo (-(Real.pi / 2)) (Real.pi / 2) ∧
    Real.cos 1 < Real.cos 0 ∧
    ¬ ((PanelSetup.mk 0 (SolarPanel.mk 0 10)).currentPower 1 <
        (PanelSetup.mk 0 (SolarPanel.mk 0 10)).currentPower 0) := by
  have hpi3 : (3 : ℝ) < Real.pi := Real.pi_gt_three
  refine ⟨?_, ?_, ?_, ?_⟩
  · apply Set.mem_Ioo.mpr
    constructor <;> linarith [Real.pi_pos]
  · apply Set.mem_Ioo.mpr
    constructor <;> linarith
  · have h0 : (0 : ℝ) ∈ Set.Icc 0 Real.pi := Set.mem_Icc.mpr ⟨le_refl 0, Real.pi_pos.le⟩
    have h1 : (1 : ℝ) ∈ Set.Icc 0 Real.pi := Set.mem_Icc.mpr ⟨by norm_num, by linarith⟩
    exact Real.strictAntiOn_cos h0 h1 (by norm_num)
  · have hz : ∀ a : ℝ, (PanelSetup.mk 0 (SolarPanel.mk 0 10)).currentPower a = 0 := by
      intro a
      simp [PanelSetup.currentPower, SolarPanel.maxPowerinW]
    rw [hz 0, hz 1]
    exact lt_irrefl 0

/-- C7 (amended): for every mount whose module has strictly positive peak
power and all incidence angles a1, a2 in the open interval around 0 with
cos a2 < cos a1, currentPower a2 < currentPower a1.  The claim as stated
fails for modules with zero (or negative) peak power, a degenerate state the
data model admits. -/
theorem C7_power_strict_mono (s : PanelSetup) (a1 a2 : ℝ)
    (hpow : 0 < s.m_panel.maxPowerinW)
    (h1 : a1 ∈ Set.Ioo (-(Real.pi / 2)) (Real.pi / 2))
    (h2 : a2 ∈ Set.Ioo (-(Real.pi / 2)) (Real.pi / 2))
    (hcos : Real.cos a2 < Real.cos a1) :
    s.currentPower a2 < s.currentPower a1 := by
  have hc1 : 0 < Real.cos a1 := Real.cos_pos_of_mem_Ioo h1
  have hc2 : 0 < Real.cos a2 := Real.cos_pos_of_mem_Ioo h2
  simp only [PanelSetup.currentPower]
  rw [if_pos hc1, if_pos hc2]
  exact mul_lt_mul_of_pos_left hcos hpow

/-- C7 witness: for a 10 by 10 module (peak power 1500), the power at
incidence 1 is strictly below the power at incidence 0. -/
theorem C7_witness :
    (PanelSetup.mk 0 (SolarPanel.mk 10 10)).currentPower 1 <
      (PanelSetup.mk 0 (SolarPanel.mk 10 10)).currentPower 0 :=
  C7_power_strict_mono (PanelSetup.mk 0 (SolarPanel.mk 10 10)) 0 1
    (by norm_num [SolarPanel.maxPowerinW, SolarPanel.oneElementPowerinW])
    (Set.mem_Ioo.mpr ⟨by linarith [Real.pi_pos], by linarith [Real.pi_pos]⟩)
    (Set.mem_Ioo.mpr ⟨by linarith [Real.pi_pos], by linarith [Real.pi_gt_three]⟩)
    (Real.strictAntiOn_cos
      (Set.mem_Icc.mpr ⟨le_refl 0, Real.pi_pos.le⟩)
      (Set.mem_Icc.mpr ⟨by norm_num, by linarith [Real.pi_gt_three]⟩)
      (by norm_num))
